import Mathlib

/-
  Shallow embedding of the DCFMaker projection and valuation engine
  (operating_model.py and dcf_calculator.py).

  Numbers are modelled as rationals.  After the normalization step of
  prepare_historical_data every value has been coerced to a number with
  NaN replaced by 0 (pd.to_numeric(...).fillna(0)), so downstream code
  never sees NaN; the embedding therefore works with plain rationals.
  A column of a pandas DataFrame is present for all rows or for none,
  so a statement is modelled as one optional list of per-year values
  per line item, plus the list of (parsed) index years.
-/

namespace DCFMaker

/-- Python max(lo, min(hi, x)) used for the gross-margin clamp. -/
def clampQ (lo hi x : ℚ) : ℚ := max lo (min hi x)

/-- np.mean of a list of rationals: sum divided by length. -/
def meanQ (xs : List ℚ) : ℚ := xs.sum / (xs.length : ℚ)

/-! ## Historical income statement normalization
  (operating_model.py, prepare_historical_data, lines 41 to 107)

  Values have already been coerced to numbers (pd.to_numeric with
  errors=coerce then fillna(0)), so each present column is a list of
  rationals, one entry per historical year in index order.  A column
  that is absent from the raw statement is none. -/

/-- Raw or normalized income statement: the parsed index years and one
  optional column per line item, each aligned with the index. -/
structure IncomeStmt where
  years : List ℕ := []
  revenue : Option (List ℚ) := none
  cogs : Option (List ℚ) := none
  sgna : Option (List ℚ) := none
  da : Option (List ℚ) := none
  otherOperatingExpenses : Option (List ℚ) := none
  interestExpense : Option (List ℚ) := none
  interestIncome : Option (List ℚ) := none
  taxExpense : Option (List ℚ) := none
  otherUnusualItems : Option (List ℚ) := none
  grossProfit : Option (List ℚ) := none
  operatingIncome : Option (List ℚ) := none
  ebitda : Option (List ℚ) := none
  ebt : Option (List ℚ) := none
  netIncome : Option (List ℚ) := none
  deriving Repr, DecidableEq

/-- Expense sign normalization: x becomes -abs(x), per year. -/
def negAbs (xs : List ℚ) : List ℚ := xs.map (fun x => -|x|)

/-- The conditional column addition of the derivation steps: add a
  column when it is present, otherwise leave the accumulator alone
  (the Python pattern: if col in columns: acc += df[col]). -/
def addCol (acc : List ℚ) (col : Option (List ℚ)) : List ℚ :=
  match col with
  | some xs => List.zipWith (fun a b => a + b) acc xs
  | none => acc

/-- Embedding of the normalization part of prepare_historical_data for
  the income statement: force the seven expense items to -abs, force
  InterestIncome to abs, recompute GrossProfit = Revenue + COGS whenever
  both columns are present, then derive OperatingIncome, EBITDA, EBT and
  NetIncome, each only when its column is absent. -/
def normalizeIncome (s : IncomeStmt) : IncomeStmt :=
  let cogsN := s.cogs.map negAbs
  let sgnaN := s.sgna.map negAbs
  let daN := s.da.map negAbs
  let otherOpexN := s.otherOperatingExpenses.map negAbs
  let interestExpenseN := s.interestExpense.map negAbs
  let taxExpenseN := s.taxExpense.map negAbs
  let otherUnusualN := s.otherUnusualItems.map negAbs
  let interestIncomeN := s.interestIncome.map (List.map (fun x => |x|))
  let grossProfitN :=
    match s.revenue, cogsN with
    | some rev, some cg => some (List.zipWith (fun a b => a + b) rev cg)
    | _, _ => s.grossProfit
  let operatingIncomeN :=
    match s.operatingIncome with
    | some oi => some oi
    | none =>
        match grossProfitN with
        | some gp => some (addCol (addCol (addCol gp sgnaN) otherOpexN) daN)
        | none => none
  let ebitdaN :=
    match s.ebitda with
    | some e => some e
    | none =>
        match operatingIncomeN, daN with
        | some oi, some d => some (List.zipWith (fun a b => a - b) oi d)
        | _, _ => none
  let ebtN :=
    match s.ebt with
    | some e => some e
    | none =>
        match operatingIncomeN with
        | some oi => some (addCol (addCol (addCol oi interestExpenseN) interestIncomeN) otherUnusualN)
        | none => none
  let netIncomeN :=
    match s.netIncome with
    | some n => some n
    | none =>
        match ebtN with
        | some e => some (addCol e taxExpenseN)
        | none => none
  { s with
    cogs := cogsN
    sgna := sgnaN
    da := daN
    otherOperatingExpenses := otherOpexN
    interestExpense := interestExpenseN
    taxExpense := taxExpenseN
    otherUnusualItems := otherUnusualN
    interestIncome := interestIncomeN
    grossProfit := grossProfitN
    operatingIncome := operatingIncomeN
    ebitda := ebitdaN
    ebt := ebtN
    netIncome := netIncomeN }

/-! ## Assumption defaults (operating_model.py, lines 164 to 241)

  Each assumption is either supplied by the caller (some value) or
  derived from the normalized historical statement. -/

/-- Embedding of calculate_average_growth_rate: mean of the year over
  year relative changes, skipping steps whose predecessor is zero;
  0 when fewer than two values or no usable step.  dropna is the
  identity here because normalization removed every NaN. -/
def averageGrowthRate (xs : List ℚ) : ℚ :=
  if xs.length < 2 then 0
  else
    let steps := (xs.zip xs.tail).filter (fun p => p.1 ≠ 0)
    let rates := steps.map (fun p => (p.2 - p.1) / |p.1|)
    if rates.isEmpty then 0 else meanQ rates

/-- Revenue growth resolution in project_income_statement: an explicit
  value is used as given; otherwise the historical average growth of the
  Revenue column, or 0.05 when the column is absent. -/
def effectiveRevenueGrowth (g : Option ℚ) (revenue : Option (List ℚ)) : ℚ :=
  match g with
  | some v => v
  | none =>
      match revenue with
      | some r => averageGrowthRate r
      | none => 1/20

/-- Gross margin derived from history: mean of (Revenue + COGS) / Revenue
  over the years where both Revenue and COGS are non-zero, clamped to
  the interval from 0.1 to 0.9; 0.5 when no valid year or a column is
  absent.  COGS is the normalized (non-positive) column. -/
def derivedGrossMargin (revenue cogs : Option (List ℚ)) : ℚ :=
  match revenue, cogs with
  | some rev, some cg =>
      let pairs := (rev.zip cg).filter (fun p => p.1 ≠ 0 ∧ p.2 ≠ 0)
      if pairs.isEmpty then 1/2
      else clampQ (1/10) (9/10) (meanQ (pairs.map (fun p => (p.1 + p.2) / p.1)))
  | _, _ => 1/2

/-- Gross margin resolution: an explicit caller value is used verbatim;
  only the derived value goes through the clamp and the 0.5 fallback. -/
def effectiveGrossMargin (gm : Option ℚ) (revenue cogs : Option (List ℚ)) : ℚ :=
  match gm with
  | some v => v
  | none => derivedGrossMargin revenue cogs

/-- SG&A percent derived from history: mean of abs(SG&A) / Revenue over
  years where both are non-zero; 0.4 when no valid year or a column is
  absent. -/
def derivedSgaPercent (revenue sgna : Option (List ℚ)) : ℚ :=
  match revenue, sgna with
  | some rev, some sg =>
      let pairs := (rev.zip sg).filter (fun p => p.1 ≠ 0 ∧ p.2 ≠ 0)
      if pairs.isEmpty then 2/5
      else meanQ (pairs.map (fun p => |p.2| / p.1))
  | _, _ => 2/5

/-- SG&A percent resolution: explicit value verbatim, else derived. -/
def effectiveSgaPercent (sp : Option ℚ) (revenue sgna : Option (List ℚ)) : ℚ :=
  match sp with
  | some v => v
  | none => derivedSgaPercent revenue sgna

/-! ## Income statement projection
  (operating_model.py, project_income_statement, lines 181 to 328) -/

/-- One projected income statement year. -/
structure IncomeRow where
  revenue : ℚ
  cogs : ℚ
  grossProfit : ℚ
  sgna : ℚ
  otherOperatingExpenses : ℚ
  ebitda : ℚ
  da : ℚ
  operatingIncome : ℚ
  interestExpense : ℚ
  otherUnusualItems : ℚ
  ebt : ℚ
  taxExpense : ℚ
  netIncome : ℚ
  deriving Repr, DecidableEq

/-- All-zero income row, used only as the default of list reads. -/
def zeroIncomeRow : IncomeRow := ⟨0, 0, 0, 0, 0, 0, 0, 0, 0, 0, 0, 0, 0⟩

/-- The body of the projection loop at year offset t (t from 1 to N):
  every quantity is computed from the single base revenue and the
  latest historical D&A and interest expense, never from a prior
  projected year. -/
def projectRow (base g gm sgaPct taxRate latestDA latestIntExp : ℚ) (t : ℕ) : IncomeRow :=
  let revenue := base * (1 + g) ^ t
  let cogs := -(revenue * (1 - gm))
  let grossProfit := revenue + cogs
  let sgna := -(revenue * sgaPct)
  let otherOpex : ℚ := 0
  let ebitda := grossProfit + sgna + otherOpex
  let daPositive := if latestDA ≠ 0 then |latestDA| * (1 + g * (1/2)) else revenue * (3/100)
  let da := -daPositive
  let operatingIncome := ebitda - da
  let interestExpense := latestIntExp
  let otherUnusual : ℚ := 0
  let ebt := operatingIncome + interestExpense + otherUnusual
  let taxExpense := -(ebt * taxRate)
  let netIncome := ebt + taxExpense
  { revenue := revenue
    cogs := cogs
    grossProfit := grossProfit
    sgna := sgna
    otherOperatingExpenses := otherOpex
    ebitda := ebitda
    da := da
    operatingIncome := operatingIncome
    interestExpense := interestExpense
    otherUnusualItems := otherUnusual
    ebt := ebt
    taxExpense := taxExpense
    netIncome := netIncome }

/-- The full projection loop: rows for year offsets 1 to N. -/
def projectRows (base g gm sgaPct taxRate latestDA latestIntExp : ℚ) (n : ℕ) : List IncomeRow :=
  (List.range n).map (fun i => projectRow base g gm sgaPct taxRate latestDA latestIntExp (i + 1))

/-- get_latest_year on the parsed index: the maximum year, none when
  the index is empty. -/
def latestYearOf (s : IncomeStmt) : Option ℕ := s.years.max?

/-- Position of the latest year row in the index (the row that
  .loc[str(latest_year)] selects). -/
def latestIdx (s : IncomeStmt) : ℕ :=
  match latestYearOf s with
  | some y => s.years.indexOf y
  | none => 0

/-- The latest-year Revenue cell read at line 245 of operating_model.py
  (0 when the Revenue column is absent); none when no latest year
  exists. -/
def latestRevenueOf (s : IncomeStmt) : Option ℚ :=
  match latestYearOf s with
  | some _ =>
      match s.revenue with
      | some r => some (r.getD (latestIdx s) 0)
      | none => some 0
  | none => none

/-- The latest-year D&A cell (0 when the column is absent). -/
def latestDAOf (s : IncomeStmt) : ℚ :=
  match s.da with
  | some l => l.getD (latestIdx s) 0
  | none => 0

/-- The latest-year InterestExpense cell (-10 when the column is
  absent, the placeholder default of the projection loop). -/
def latestIntExpOf (s : IncomeStmt) : ℚ :=
  match s.interestExpense with
  | some l => l.getD (latestIdx s) 0
  | none => -10

/-- Resolution of the revenue compounding base (lines 244 to 260 of
  operating_model.py): the latest-year Revenue when it is non-zero;
  when it is zero, the last non-zero value of the Revenue column (in
  index order), or the error result (none) when every value is zero.
  When the Revenue column is absent the code falls through with a base
  of 0 and no error. -/
def baseRevenueOf (s : IncomeStmt) : Option ℚ :=
  match s.revenue with
  | some r =>
      if r.getD (latestIdx s) 0 = 0 then (r.filter (fun x => x ≠ 0)).getLast?
      else some (r.getD (latestIdx s) 0)
  | none => some 0

/-- Embedding of project_income_statement: resolve the assumptions,
  read the latest-year base values, substitute the last non-zero
  historical revenue when the latest one is zero (error when the
  Revenue column is present but has no non-zero value), then emit the
  projection rows.  none models the empty DataFrame error returns. -/
def projectIncome (s : IncomeStmt) (g gm sgaPct : Option ℚ) (taxRate : ℚ) (n : ℕ) :
    Option (List IncomeRow) :=
  if s.years = [] then none
  else
    match latestYearOf s with
    | none => none
    | some _ =>
        match baseRevenueOf s with
        | some base =>
            some (projectRows base
              (effectiveRevenueGrowth g s.revenue)
              (effectiveGrossMargin gm s.revenue s.cogs)
              (effectiveSgaPercent sgaPct s.revenue s.sgna)
              taxRate (latestDAOf s) (latestIntExpOf s) n)
        | none => none

/-! ## Balance sheet projection
  (operating_model.py, project_balance_sheet, lines 330 to 448)

  Every iteration of the loop reads latest_row, the latest historical
  balance row, never a previously projected row. -/

/-- Latest historical balance sheet row; a field is none when its
  column is absent from the balance sheet. -/
structure BalRow where
  cash : Option ℚ := none
  shortTermInvestments : Option ℚ := none
  currentAssets : Option ℚ := none
  ppe : Option ℚ := none
  otherLongTermAssets : Option ℚ := none
  shortTermLiabilities : Option ℚ := none
  longTermDebt : Option ℚ := none
  longTermLeases : Option ℚ := none
  otherLongTermLiabilities : Option ℚ := none
  retainedEarnings : Option ℚ := none
  commonStock : Option ℚ := none
  paidInCapital : Option ℚ := none
  deriving Repr, DecidableEq

/-- One projected balance sheet year. -/
structure ProjBalRow where
  cash : ℚ
  shortTermInvestments : ℚ
  currentAssets : ℚ
  ppe : ℚ
  otherLongTermAssets : ℚ
  totalAssets : ℚ
  shortTermLiabilities : ℚ
  longTermDebt : ℚ
  longTermLeases : ℚ
  otherLongTermLiabilities : ℚ
  totalLiabilities : ℚ
  retainedEarnings : ℚ
  commonStock : ℚ
  paidInCapital : ℚ
  totalEquity : ℚ
  deriving Repr, DecidableEq

/-- All-zero projected balance row, used only as the default of list
  reads. -/
def zeroProjBalRow : ProjBalRow := ⟨0, 0, 0, 0, 0, 0, 0, 0, 0, 0, 0, 0, 0, 0, 0⟩

/-- The body of the balance projection loop for one year: latest is the
  latest historical balance row, latestRev the latest historical
  revenue, inc the same-year projected income row. -/
def projectBalanceRow (latest : BalRow) (latestRev : ℚ) (inc : IncomeRow) : ProjBalRow :=
  let projectedRevenue := inc.revenue
  let cash := latest.cash.getD 0
  let sti := latest.shortTermInvestments.getD 0
  let currentAssets :=
    if 0 < latestRev then latest.currentAssets.getD 0 * (projectedRevenue / latestRev)
    else latest.currentAssets.getD 0
  let capex := projectedRevenue * (4/100)
  let daAbs := |inc.da|
  let ppe := latest.ppe.getD 0 + capex - daAbs
  let otherLTA := latest.otherLongTermAssets.getD 0 * (1 + 2/100)
  let totalAssets := currentAssets + ppe + otherLTA
  let stl :=
    if 0 < latestRev then latest.shortTermLiabilities.getD 0 * (projectedRevenue / latestRev)
    else latest.shortTermLiabilities.getD 0
  let ltDebt := latest.longTermDebt.getD 0
  let ltLeases := latest.longTermLeases.getD 0
  let otherLTL := latest.otherLongTermLiabilities.getD 0
  let totalLiabilities := stl + ltDebt + ltLeases + otherLTL
  let retainedEarnings := latest.retainedEarnings.getD 0 + inc.netIncome
  let commonStock := latest.commonStock.getD 0
  let paidInCapital := latest.paidInCapital.getD 0
  let totalEquity := retainedEarnings + commonStock + paidInCapital
  { cash := cash
    shortTermInvestments := sti
    currentAssets := currentAssets
    ppe := ppe
    otherLongTermAssets := otherLTA
    totalAssets := totalAssets
    shortTermLiabilities := stl
    longTermDebt := ltDebt
    longTermLeases := ltLeases
    otherLongTermLiabilities := otherLTL
    totalLiabilities := totalLiabilities
    retainedEarnings := retainedEarnings
    commonStock := commonStock
    paidInCapital := paidInCapital
    totalEquity := totalEquity }

/-- The balance projection loop over the projected income rows (one
  output row per projected income year, in the same order). -/
def projectBalance (latest : BalRow) (latestRev : ℚ) (incRows : List IncomeRow) :
    List ProjBalRow :=
  incRows.map (projectBalanceRow latest latestRev)

/-! ## Free cash flow (dcf_calculator.py, calculate_free_cash_flow) -/

/-- A projected cash flow row as read by the FCF loop: the two primary
  columns are always written by project_cash_flow; ChangeInWorkingCapital
  carries its column presence guard. -/
structure CashRow where
  operatingCashFlow : ℚ
  capitalExpenditures : ℚ
  changeInWorkingCapital : Option ℚ := none
  deriving Repr, DecidableEq

/-- The income row fields read by the FCF fallback, each with its
  column presence guard. -/
structure FcfIncomeRow where
  operatingIncome : Option ℚ := none
  da : Option ℚ := none
  deriving Repr, DecidableEq

/-- The body of the FCF loop for one projected year: primary value
  OperatingCashFlow - abs(CapitalExpenditures) from the cash flow row
  (0 components when the year is absent from the cash flow index), and
  when that is exactly 0 and the year is in the income index, the
  NOPAT-based fallback. -/
def fcfYear (taxRate : ℚ) (cashRow : Option CashRow) (incomeRow : Option FcfIncomeRow) : ℚ :=
  let operatingCf := match cashRow with | some r => r.operatingCashFlow | none => 0
  let capex := match cashRow with | some r => |r.capitalExpenditures| | none => 0
  let fcf := operatingCf - capex
  if fcf = 0 then
    match incomeRow with
    | some ir =>
        let ebit := ir.operatingIncome.getD 0
        let daAbs := match ir.da with | some v => |v| | none => 0
        let nopat := ebit * (1 - taxRate)
        let changeWc := match cashRow with | some r => r.changeInWorkingCapital.getD 0 | none => 0
        nopat + daAbs - capex - changeWc
    | none => fcf
  else fcf

/-- The FCF loop over year offsets 1 to N: cashRows and incRows give the
  row of the combined statement at each future year offset, none when
  that year label is absent from the index. -/
def calculateFreeCashFlows (taxRate : ℚ) (cashRows : ℕ → Option CashRow)
    (incRows : ℕ → Option FcfIncomeRow) (n : ℕ) : List ℚ :=
  (List.range n).map (fun i => fcfYear taxRate (cashRows (i + 1)) (incRows (i + 1)))

/-! ## Equity value (dcf_calculator.py, calculate_equity_value) -/

/-- DataFrame .loc lookup of a year label in the balance sheet output:
  the first row carrying that year, none when absent (this also covers
  the empty balance sheet). -/
def lookupYear (rows : List (ℕ × BalRow)) (y : ℕ) : Option BalRow :=
  (rows.find? (fun p => p.1 = y)).map (fun p => p.2)

/-- Net debt of a balance row: LongTermDebt (plus a short term debt of
  0) minus Cash plus ShortTermInvestments, absent columns read as 0. -/
def netDebtOf (row : BalRow) : ℚ :=
  let totalDebt := row.longTermDebt.getD 0 + 0
  let totalCash := row.cash.getD 0 + row.shortTermInvestments.getD 0
  totalDebt - totalCash

/-- Embedding of calculate_equity_value: enterprise value minus net
  debt of the latest-year balance row, net debt 0 when that year is
  absent from the balance sheet. -/
def calculateEquityValue (enterpriseValue : ℚ) (balanceRows : List (ℕ × BalRow))
    (latestYear : ℕ) : ℚ :=
  match lookupYear balanceRows latestYear with
  | some row => enterpriseValue - netDebtOf row
  | none => enterpriseValue - 0

/-! ## Terminal value (dcf_calculator.py, calculate_terminal_value)

  The Python code reads the final projected FCF with iloc[-1] (an
  exception on an empty series, modelled as none) and branches on
  wacc > terminal_growth. -/

/-- Embedding of DCFCalculator.calculate_terminal_value: the last
  element of the FCF series is the final FCF; Gordon growth when
  wacc is strictly above the terminal growth rate, otherwise a fixed
  10x multiple. -/
def calculateTerminalValue (fcfs : List ℚ) (wacc terminalGrowth : ℚ) : Option ℚ :=
  match fcfs.getLast? with
  | none => none
  | some finalFcf =>
      if terminalGrowth < wacc then
        some (finalFcf * (1 + terminalGrowth) / (wacc - terminalGrowth))
      else
        some (finalFcf * 10)

/-! ## Price per share (dcf_calculator.py, calculate_all)

  price_per_share = equity_value / shares_outstanding if shares_outstanding else None.
  Python truthiness: both None and 0 select the None branch. -/

/-- Embedding of the price_per_share computation in calculate_all.
  shares = none models an absent shares_outstanding assumption. -/
def pricePerShare (equityValue : ℚ) (shares : Option ℚ) : Option ℚ :=
  match shares with
  | none => none
  | some s => if s = 0 then none else some (equityValue / s)

end DCFMaker

/-! ## Helper lemmas shared by the claim theorems -/

namespace DCFMaker

theorem projectRows_length (b g gm sp tr da ie : ℚ) (n : ℕ) :
    (projectRows b g gm sp tr da ie n).length = n := by
  simp [projectRows]

theorem projectRows_getD (b g gm sp tr da ie : ℚ) (n i : ℕ) (h : i < n) :
    (projectRows b g gm sp tr da ie n).getD i zeroIncomeRow =
      projectRow b g gm sp tr da ie (i + 1) := by
  simp [projectRows, List.getD_eq_getElem?_getD, List.getElem?_map, List.getElem?_range, h]

theorem projectRows_head (b g gm sp tr da ie : ℚ) (m : ℕ) :
    (projectRows b g gm sp tr da ie (m + 1)).head? =
      some (projectRow b g gm sp tr da ie 1) := by
  simp [projectRows, List.range_succ_eq_map]

theorem mem_projectRows (b g gm sp tr da ie : ℚ) (n : ℕ) (r : IncomeRow)
    (h : r ∈ projectRows b g gm sp tr da ie n) :
    ∃ t, r = projectRow b g gm sp tr da ie (t + 1) := by
  simp only [projectRows, List.mem_map] at h
  obtain ⟨i, _, hi⟩ := h
  exact ⟨i, hi.symm⟩

theorem latestYearOf_ne_nil {s : IncomeStmt} {y : ℕ} (h : latestYearOf s = some y) :
    s.years ≠ [] := by
  intro he
  rw [latestYearOf, he] at h
  simp at h

theorem projectIncome_eq_some (s : IncomeStmt) (g gm sp : Option ℚ) (tr : ℚ) (n : ℕ)
    (hy : s.years ≠ []) (b : ℚ) (hb : baseRevenueOf s = some b) :
    projectIncome s g gm sp tr n =
      some (projectRows b (effectiveRevenueGrowth g s.revenue)
        (effectiveGrossMargin gm s.revenue s.cogs)
        (effectiveSgaPercent sp s.revenue s.sgna)
        tr (latestDAOf s) (latestIntExpOf s) n) := by
  have hmax : ∃ y, latestYearOf s = some y := by
    rw [latestYearOf]
    cases hm : s.years.max? with
    | none => exact absurd (List.max?_eq_none_iff.mp hm) hy
    | some y => exact ⟨y, rfl⟩
  obtain ⟨y, hmax⟩ := hmax
  simp [projectIncome, hy, hmax, hb]

theorem projectIncome_eq_none (s : IncomeStmt) (g gm sp : Option ℚ) (tr : ℚ) (n : ℕ)
    (hb : baseRevenueOf s = none) :
    projectIncome s g gm sp tr n = none := by
  by_cases hy : s.years = []
  · simp [projectIncome, hy]
  · cases hmax : latestYearOf s with
    | none => simp [projectIncome, hy, hmax]
    | some y => simp [projectIncome, hy, hmax, hb]

theorem projectIncome_some_inv (s : IncomeStmt) (g gm sp : Option ℚ) (tr : ℚ) (n : ℕ)
    (rows : List IncomeRow) (h : projectIncome s g gm sp tr n = some rows) :
    ∃ b, baseRevenueOf s = some b ∧
      rows = projectRows b (effectiveRevenueGrowth g s.revenue)
        (effectiveGrossMargin gm s.revenue s.cogs)
        (effectiveSgaPercent sp s.revenue s.sgna)
        tr (latestDAOf s) (latestIntExpOf s) n := by
  by_cases hy : s.years = []
  · simp [projectIncome, hy] at h
  · cases hmax : latestYearOf s with
    | none => simp [projectIncome, hy, hmax] at h
    | some y =>
        cases hb : baseRevenueOf s with
        | none => simp [projectIncome, hy, hmax, hb] at h
        | some b =>
            refine ⟨b, rfl, ?_⟩
            simp [projectIncome, hy, hmax, hb] at h
            exact h.symm

end DCFMaker

/-- C5: calculate_terminal_value returns FCF_final * (1 + terminal_growth) /
  (WACC - terminal_growth) whenever WACC > terminal_growth, and
  FCF_final * 10 whenever WACC <= terminal_growth; both branches return a
  value (never an error), given a non-empty FCF series. -/
theorem claim_C5_terminal_value (fcfs : List ℚ) (wacc tg f : ℚ)
    (hlast : fcfs.getLast? = some f) :
    (tg < wacc →
      DCFMaker.calculateTerminalValue fcfs wacc tg = some (f * (1 + tg) / (wacc - tg))) ∧
    (wacc ≤ tg →
      DCFMaker.calculateTerminalValue fcfs wacc tg = some (f * 10)) := by
  unfold DCFMaker.calculateTerminalValue
  rw [hlast]
  constructor
  · intro h
    simp [h]
  · intro h
    simp [not_lt.mpr h]

/-- Witness for C5: both branches evaluated at concrete inputs. -/
theorem claim_C5_terminal_value_witness :
    DCFMaker.calculateTerminalValue [500] (84/1000) (3/100)
      = some (500 * (1 + 3/100) / (84/1000 - 3/100)) ∧
    DCFMaker.calculateTerminalValue [500] (2/100) (3/100) = some (500 * 10) :=
  ⟨(claim_C5_terminal_value [500] (84/1000) (3/100) 500 rfl).1 (by norm_num),
   (claim_C5_terminal_value [500] (2/100) (3/100) 500 rfl).2 (by norm_num)⟩

/-- C10: calculate_all yields no price per share when shares_outstanding is
  absent or zero, and performs the division equity_value / shares only with
  a non-zero divisor. -/
theorem claim_C10_price_per_share (e : ℚ) :
    DCFMaker.pricePerShare e none = none ∧
    DCFMaker.pricePerShare e (some 0) = none ∧
    (∀ s : ℚ, s ≠ 0 → DCFMaker.pricePerShare e (some s) = some (e / s)) := by
  refine ⟨rfl, by simp [DCFMaker.pricePerShare], ?_⟩
  intro s hs
  simp [DCFMaker.pricePerShare, hs]

/-- Witness for C10: at shares = 4 the hypothesis s = 4 is non-zero. -/
theorem claim_C10_price_per_share_witness :
    DCFMaker.pricePerShare 100 (some 4) = some (100 / 4) :=
  (claim_C10_price_per_share 100).2.2 4 (by norm_num)

/-- C1: for every projected year offset t in 1..N, the free cash flow is
  the primary value OperatingCashFlow - abs(CapitalExpenditures) from the
  cash-flow row of that year, and exactly when that primary value is 0 it
  instead equals NOPAT + D&A - CapEx - ChangeInWorkingCapital with
  NOPAT = OperatingIncome * (1 - tax_rate), the D&A and OperatingIncome
  read from the income row and CapEx and working-capital change from the
  cash-flow row. -/
theorem claim_C1_free_cash_flow (tr : ℚ) (cashRows : ℕ → Option DCFMaker.CashRow)
    (incRows : ℕ → Option DCFMaker.FcfIncomeRow) (n t : ℕ)
    (ht1 : 1 ≤ t) (htn : t ≤ n)
    (cr : DCFMaker.CashRow) (ir : DCFMaker.FcfIncomeRow) (oi dv wv : ℚ)
    (hc : cashRows t = some cr) (hi : incRows t = some ir)
    (hoi : ir.operatingIncome = some oi) (hda : ir.da = some dv)
    (hwc : cr.changeInWorkingCapital = some wv) :
    (DCFMaker.calculateFreeCashFlows tr cashRows incRows n).getD (t - 1) 0 =
      if cr.operatingCashFlow - |cr.capitalExpenditures| = 0
      then oi * (1 - tr) + |dv| - |cr.capitalExpenditures| - wv
      else cr.operatingCashFlow - |cr.capitalExpenditures| := by
  have hlt : t - 1 < n := by omega
  have ht' : t - 1 + 1 = t := Nat.sub_add_cancel ht1
  have hgd : (DCFMaker.calculateFreeCashFlows tr cashRows incRows n).getD (t - 1) 0 =
      DCFMaker.fcfYear tr (cashRows t) (incRows t) := by
    simp [DCFMaker.calculateFreeCashFlows, List.getD_eq_getElem?_getD,
      List.getElem?_map, List.getElem?_range, hlt, ht']
  rw [hgd, hc, hi]
  simp only [DCFMaker.fcfYear, hoi, hda, hwc, Option.getD_some]

/-- Witness for C1 at a concrete year with a non-zero primary value. -/
theorem claim_C1_free_cash_flow_witness :
    (DCFMaker.calculateFreeCashFlows (1/4) (fun _ => some ⟨100, -20, some 5⟩)
      (fun _ => some ⟨some 50, some (-7)⟩) 3).getD 1 0 = 80 := by
  have h := claim_C1_free_cash_flow (1/4) (fun _ => some ⟨100, -20, some 5⟩)
    (fun _ => some ⟨some 50, some (-7)⟩) 3 2 (by norm_num) (by norm_num)
    ⟨100, -20, some 5⟩ ⟨some 50, some (-7)⟩ 50 (-7) 5 rfl rfl rfl rfl rfl
  norm_num at h
  exact h

/-- C2: calculate_equity_value returns enterprise value minus net debt
  with net debt = LongTermDebt - (Cash + ShortTermInvestments) read from
  the latest-year balance row (absent columns read as 0), and net debt
  defaults to 0 exactly when that year is absent from the balance
  sheet. -/
theorem claim_C2_equity_value (ev : ℚ) (rows : List (ℕ × DCFMaker.BalRow)) (y : ℕ) :
    (∀ row : DCFMaker.BalRow, DCFMaker.lookupYear rows y = some row →
       DCFMaker.calculateEquityValue ev rows y =
         ev - (row.longTermDebt.getD 0 -
           (row.cash.getD 0 + row.shortTermInvestments.getD 0))) ∧
    (DCFMaker.lookupYear rows y = none →
       DCFMaker.calculateEquityValue ev rows y = ev) := by
  constructor
  · intro row h
    simp [DCFMaker.calculateEquityValue, h, DCFMaker.netDebtOf]
  · intro h
    simp [DCFMaker.calculateEquityValue, h]

/-- Witness for C2: a balance sheet holding the latest year 2023. -/
theorem claim_C2_equity_value_witness :
    DCFMaker.calculateEquityValue 1000
      [(2023, { longTermDebt := some 50, cash := some 20,
                shortTermInvestments := some 5 })] 2023 = 1000 - (50 - (20 + 5)) := by
  have h := (claim_C2_equity_value 1000
      [(2023, { longTermDebt := some 50, cash := some 20,
                shortTermInvestments := some 5 })] 2023).1
    { longTermDebt := some 50, cash := some 20, shortTermInvestments := some 5 } rfl
  simpa using h

/-- C3: when the latest historical Revenue is non-zero (post
  normalization there is no NaN: fillna already replaced NaN by 0), the
  projected Revenue at year offset t equals LatestRevenue times
  (1 + revenue_growth) to the power t, computed from the single latest
  historical revenue, not chained off prior projected years. -/
theorem claim_C3_revenue_compounding (s : DCFMaker.IncomeStmt) (g gm sp : Option ℚ)
    (tr : ℚ) (n : ℕ) (rows : List DCFMaker.IncomeRow) (t : ℕ) (R : ℚ)
    (ht1 : 1 ≤ t) (htn : t ≤ n)
    (h : DCFMaker.projectIncome s g gm sp tr n = some rows)
    (hR : DCFMaker.latestRevenueOf s = some R) (hR0 : R ≠ 0) :
    (rows.getD (t - 1) DCFMaker.zeroIncomeRow).revenue =
      R * (1 + DCFMaker.effectiveRevenueGrowth g s.revenue) ^ t := by
  cases hmax : DCFMaker.latestYearOf s with
  | none => simp [DCFMaker.latestRevenueOf, hmax] at hR
  | some y =>
      cases hrev : s.revenue with
      | none =>
          simp [DCFMaker.latestRevenueOf, hmax, hrev] at hR
          exact absurd hR.symm hR0
      | some r =>
          have hRr : r.getD (DCFMaker.latestIdx s) 0 = R := by
            have hcopy := hR
            simp only [DCFMaker.latestRevenueOf, hmax, hrev] at hcopy
            exact Option.some.inj hcopy
          have hbase : DCFMaker.baseRevenueOf s = some R := by
            simp only [DCFMaker.baseRevenueOf, hrev]
            rw [hRr, if_neg hR0]
          have heq := DCFMaker.projectIncome_eq_some s g gm sp tr n
            (DCFMaker.latestYearOf_ne_nil hmax) R hbase
          rw [h] at heq
          have hrows := Option.some.inj heq
          have ht2 : t - 1 + 1 = t := Nat.sub_add_cancel ht1
          rw [hrows, DCFMaker.projectRows_getD _ _ _ _ _ _ _ n (t - 1) (by omega), ht2]
          simp [DCFMaker.projectRow]
          exact Or.inl (by rw [hrev])

/-- Witness for C3: two years of history, latest revenue 100, explicit
  growth 1/10, year offset 2. -/
theorem claim_C3_revenue_compounding_witness :
    ((DCFMaker.projectRows 100 (1/10) (1/2) (1/5) (1/4) 0 (-10) 2).getD (2 - 1)
        DCFMaker.zeroIncomeRow).revenue =
      100 * (1 + DCFMaker.effectiveRevenueGrowth (some (1/10)) (some [80, 100])) ^ 2 := by
  have h := claim_C3_revenue_compounding
    { years := [2022, 2023], revenue := some [80, 100] } (some (1/10)) (some (1/2))
    (some (1/5)) (1/4) 2
    (DCFMaker.projectRows 100 (1/10) (1/2) (1/5) (1/4) 0 (-10) 2) 2 100
    (by norm_num) (by norm_num) rfl rfl (by norm_num)
  exact h

/-- C4 counterexample: with latest historical RetainedEarnings 0 and two
  projected years of NetIncome 100 each, the projected RetainedEarnings
  is 100 in both years (latest RE plus only that year's NetIncome), not
  the accumulating 100 then 200 the claim requires: the year-2 value 100
  differs from RE of year 1 plus NetIncome of year 2, which is 200. -/
theorem claim_C4_counterexample :
    (DCFMaker.projectBalance { retainedEarnings := some 0 } 1
        [{ DCFMaker.zeroIncomeRow with netIncome := 100 },
         { DCFMaker.zeroIncomeRow with netIncome := 100 }]).map
      DCFMaker.ProjBalRow.retainedEarnings = [100, 100] ∧
    (100 : ℚ) ≠ 100 + 100 := by
  constructor
  · norm_num [DCFMaker.projectBalance, DCFMaker.projectBalanceRow, DCFMaker.zeroIncomeRow]
  · norm_num

/-- C4 amended: in the projected balance sheet, RetainedEarnings of every
  projected year t equals the latest HISTORICAL RetainedEarnings plus that
  single year's projected NetIncome (the loop re-reads the latest
  historical row each iteration, so nothing accumulates across projected
  years).  Index t here is 0-based over the projected years. -/
theorem claim_C4_retained_earnings_amended (latest : DCFMaker.BalRow) (lrev : ℚ)
    (incRows : List DCFMaker.IncomeRow) (t : ℕ) (ht : t < incRows.length) :
    ((DCFMaker.projectBalance latest lrev incRows).getD t
        DCFMaker.zeroProjBalRow).retainedEarnings =
      latest.retainedEarnings.getD 0 +
        (incRows.getD t DCFMaker.zeroIncomeRow).netIncome := by
  simp only [DCFMaker.projectBalance, List.getD_eq_getElem?_getD, List.getElem?_map]
  rw [List.getElem?_eq_getElem ht]
  simp [DCFMaker.projectBalanceRow]

/-- Witness for C4 amended: latest RE 5, one projected year with
  NetIncome 100 gives RE 105. -/
theorem claim_C4_retained_earnings_amended_witness :
    ((DCFMaker.projectBalance { retainedEarnings := some 5 } 1
        [{ DCFMaker.zeroIncomeRow with netIncome := 100 }]).getD 0
        DCFMaker.zeroProjBalRow).retainedEarnings = 5 + 100 := by
  have h := claim_C4_retained_earnings_amended { retainedEarnings := some 5 } 1
    [{ DCFMaker.zeroIncomeRow with netIncome := 100 }] 0 (by norm_num)
  simpa [DCFMaker.zeroIncomeRow] using h

/-- C9: when the latest historical Revenue is 0 (after normalization a
  NaN revenue has already become 0, so the 0-or-NaN case is the 0 case),
  project_income_statement does not fail: with the index in chronological
  order, it compounds from the most recent (positionally last) non-zero
  historical Revenue, and returns the empty error result exactly when the
  Revenue column has no non-zero value at all. -/
theorem claim_C9_zero_revenue_fallback (s : DCFMaker.IncomeStmt) (g gm sp : Option ℚ)
    (tr : ℚ) (m : ℕ) (rs : List ℚ)
    (hrev : s.revenue = some rs)
    (hlat : DCFMaker.latestRevenueOf s = some 0)
    (_hchrono : List.Sorted (fun a b => a < b) s.years) :
    (∀ v, (rs.filter (fun x => x ≠ 0)).getLast? = some v →
       ∃ rows, DCFMaker.projectIncome s g gm sp tr (m + 1) = some rows ∧
         rows.head?.map DCFMaker.IncomeRow.revenue =
           some (v * (1 + DCFMaker.effectiveRevenueGrowth g s.revenue))) ∧
    ((rs.filter (fun x => x ≠ 0)) = [] →
       DCFMaker.projectIncome s g gm sp tr (m + 1) = none) := by
  cases hmax : DCFMaker.latestYearOf s with
  | none => simp [DCFMaker.latestRevenueOf, hmax] at hlat
  | some y =>
      have hz : rs.getD (DCFMaker.latestIdx s) 0 = 0 := by
        have hcopy := hlat
        simp only [DCFMaker.latestRevenueOf, hmax, hrev] at hcopy
        exact Option.some.inj hcopy
      constructor
      · intro v hv
        have hbase : DCFMaker.baseRevenueOf s = some v := by
          simp only [DCFMaker.baseRevenueOf, hrev]
          rw [hz]
          simpa using hv
        refine ⟨_, DCFMaker.projectIncome_eq_some s g gm sp tr (m + 1)
          (DCFMaker.latestYearOf_ne_nil hmax) v hbase, ?_⟩
        rw [DCFMaker.projectRows_head]
        simp [DCFMaker.projectRow, pow_one]
      · intro hnil
        have hbase : DCFMaker.baseRevenueOf s = none := by
          simp only [DCFMaker.baseRevenueOf, hrev]
          rw [hz, hnil]
          simp
        exact DCFMaker.projectIncome_eq_none s g gm sp tr (m + 1) hbase

/-- Witness for C9: latest-year revenue 0, most recent non-zero revenue
  9 (year 2022), one projected year. -/
theorem claim_C9_zero_revenue_fallback_witness :
    ((DCFMaker.projectIncome { years := [2021, 2022, 2023], revenue := some [7, 9, 0] }
        (some (1/10)) (some (1/2)) (some (1/5)) (1/4) 1).getD []).head?.map
      DCFMaker.IncomeRow.revenue =
      some (9 * (1 + DCFMaker.effectiveRevenueGrowth (some (1/10)) (some [7, 9, 0]))) := by
  obtain ⟨rows, h1, h2⟩ := (claim_C9_zero_revenue_fallback
    { years := [2021, 2022, 2023], revenue := some [7, 9, 0] } (some (1/10)) (some (1/2))
    (some (1/5)) (1/4) 0 [7, 9, 0] rfl rfl (by decide)).1 9 rfl
  rw [h1]
  simpa using h2

namespace DCFMaker

theorem mapNegAbs_some_nonpos (c : Option (List ℚ)) (xs : List ℚ)
    (h : c.map negAbs = some xs) : ∀ x ∈ xs, x ≤ 0 := by
  cases c with
  | none => simp at h
  | some ys =>
      simp only [Option.map_some', Option.some.injEq] at h
      subst h
      intro x hx
      simp only [negAbs, List.mem_map] at hx
      obtain ⟨y, _, rfl⟩ := hx
      exact neg_nonpos.mpr (abs_nonneg y)

theorem mapAbs_some_nonneg (c : Option (List ℚ)) (xs : List ℚ)
    (h : c.map (List.map (fun x => |x|)) = some xs) : ∀ x ∈ xs, 0 ≤ x := by
  cases c with
  | none => simp at h
  | some ys =>
      simp only [Option.map_some', Option.some.injEq] at h
      subst h
      intro x hx
      simp only [List.mem_map] at hx
      obtain ⟨y, _, rfl⟩ := hx
      exact abs_nonneg y

end DCFMaker

/-- C6 counterexample: an input whose GrossProfit is already present
  (999) together with Revenue 100 and COGS 30 comes out of normalization
  with GrossProfit overwritten to Revenue + normalized COGS = 70, so a
  present aggregate is not left unchanged. -/
theorem claim_C6_counterexample :
    (DCFMaker.normalizeIncome
        { years := [2023], revenue := some [100], cogs := some [30],
          grossProfit := some [999] }).grossProfit = some [70] ∧
    some [(70 : ℚ)] ≠ some [(999 : ℚ)] := by
  constructor
  · norm_num [DCFMaker.normalizeIncome, DCFMaker.negAbs]
  · norm_num

/-- C6 amended: OperatingIncome, EBITDA, EBT and NetIncome are derived
  only when absent and their present (coerced) input values are left
  unchanged; GrossProfit however is recomputed as Revenue plus the
  sign-normalized COGS whenever both of those columns are present,
  overwriting any supplied GrossProfit, and is left unchanged only when
  Revenue or COGS is absent. -/
theorem claim_C6_aggregate_presence_amended (s : DCFMaker.IncomeStmt) :
    (∀ v, s.operatingIncome = some v →
       (DCFMaker.normalizeIncome s).operatingIncome = some v) ∧
    (∀ v, s.ebitda = some v → (DCFMaker.normalizeIncome s).ebitda = some v) ∧
    (∀ v, s.ebt = some v → (DCFMaker.normalizeIncome s).ebt = some v) ∧
    (∀ v, s.netIncome = some v → (DCFMaker.normalizeIncome s).netIncome = some v) ∧
    ((s.revenue = none ∨ s.cogs = none) →
       (DCFMaker.normalizeIncome s).grossProfit = s.grossProfit) ∧
    (∀ rev cg, s.revenue = some rev → s.cogs = some cg →
       (DCFMaker.normalizeIncome s).grossProfit =
         some (List.zipWith (fun a b => a + b) rev (DCFMaker.negAbs cg))) := by
  refine ⟨?_, ?_, ?_, ?_, ?_, ?_⟩
  · intro v hv
    simp [DCFMaker.normalizeIncome, hv]
  · intro v hv
    simp [DCFMaker.normalizeIncome, hv]
  · intro v hv
    simp [DCFMaker.normalizeIncome, hv]
  · intro v hv
    simp [DCFMaker.normalizeIncome, hv]
  · intro hor
    rcases hor with hrev | hcogs
    · simp [DCFMaker.normalizeIncome, hrev]
    · cases hrev : s.revenue <;> simp [DCFMaker.normalizeIncome, hrev, hcogs]
  · intro rev cg hrev hcogs
    simp [DCFMaker.normalizeIncome, hrev, hcogs]

/-- Witness for C6 amended: a present OperatingIncome column survives
  normalization unchanged, and GrossProfit is untouched when Revenue is
  absent. -/
theorem claim_C6_aggregate_presence_amended_witness :
    (DCFMaker.normalizeIncome
        { years := [2023], operatingIncome := some [7] }).operatingIncome = some [7] ∧
    (DCFMaker.normalizeIncome
        { years := [2023], grossProfit := some [8] }).grossProfit = some [8] :=
  ⟨(claim_C6_aggregate_presence_amended
      { years := [2023], operatingIncome := some [7] }).1 [7] rfl,
   (claim_C6_aggregate_presence_amended
      { years := [2023], grossProfit := some [8] }).2.2.2.2.1 (Or.inl rfl)⟩

/-- C7 counterexample: income items need not be non-negative after
  normalization (a supplied NetIncome of -50 stays -50), and in the
  projected income statement the expense item TaxExpense is positive
  whenever EBT is negative (here a year with a heavy SG&A load gives
  TaxExpense 157/4 > 0). -/
theorem claim_C7_counterexample :
    (DCFMaker.normalizeIncome
        { years := [2023], revenue := some [100],
          netIncome := some [-50] }).netIncome = some [-50] ∧
    ((-50 : ℚ) < 0) ∧
    0 < (DCFMaker.projectRow 100 0 (1/2) 2 (1/4) 0 (-10) 1).taxExpense := by
  refine ⟨?_, by norm_num, ?_⟩
  · simp [DCFMaker.normalizeIncome]
  · norm_num [DCFMaker.projectRow]

/-- C7 amended: after normalization of the historical income statement,
  every present expense column (COGS, SG&A, D&A, OtherOperatingExpenses,
  InterestExpense, TaxExpense, OtherUnusualItems) holds only non-positive
  values and InterestIncome holds only non-negative values; no sign
  constraint holds in general for revenue or income aggregates, nor for
  the projected statement. -/
theorem claim_C7_sign_convention_amended (s : DCFMaker.IncomeStmt) :
    (∀ xs, (DCFMaker.normalizeIncome s).cogs = some xs → ∀ x ∈ xs, x ≤ 0) ∧
    (∀ xs, (DCFMaker.normalizeIncome s).sgna = some xs → ∀ x ∈ xs, x ≤ 0) ∧
    (∀ xs, (DCFMaker.normalizeIncome s).da = some xs → ∀ x ∈ xs, x ≤ 0) ∧
    (∀ xs, (DCFMaker.normalizeIncome s).otherOperatingExpenses = some xs →
       ∀ x ∈ xs, x ≤ 0) ∧
    (∀ xs, (DCFMaker.normalizeIncome s).interestExpense = some xs → ∀ x ∈ xs, x ≤ 0) ∧
    (∀ xs, (DCFMaker.normalizeIncome s).taxExpense = some xs → ∀ x ∈ xs, x ≤ 0) ∧
    (∀ xs, (DCFMaker.normalizeIncome s).otherUnusualItems = some xs →
       ∀ x ∈ xs, x ≤ 0) ∧
    (∀ xs, (DCFMaker.normalizeIncome s).interestIncome = some xs → ∀ x ∈ xs, 0 ≤ x) :=
  ⟨fun xs h => DCFMaker.mapNegAbs_some_nonpos s.cogs xs h,
   fun xs h => DCFMaker.mapNegAbs_some_nonpos s.sgna xs h,
   fun xs h => DCFMaker.mapNegAbs_some_nonpos s.da xs h,
   fun xs h => DCFMaker.mapNegAbs_some_nonpos s.otherOperatingExpenses xs h,
   fun xs h => DCFMaker.mapNegAbs_some_nonpos s.interestExpense xs h,
   fun xs h => DCFMaker.mapNegAbs_some_nonpos s.taxExpense xs h,
   fun xs h => DCFMaker.mapNegAbs_some_nonpos s.otherUnusualItems xs h,
   fun xs h => DCFMaker.mapAbs_some_nonneg s.interestIncome xs h⟩

/-- Witness for C7 amended: a raw COGS of +5 is normalized to -5, which
  is non-positive. -/
theorem claim_C7_sign_convention_amended_witness : ((-5 : ℚ) ≤ 0) :=
  (claim_C7_sign_convention_amended { years := [2023], cogs := some [5] }).1
    [-5] (by norm_num [DCFMaker.normalizeIncome, DCFMaker.negAbs]) (-5) (by norm_num)

/-- C8: an explicit gross_margin is used verbatim (no clamp), the margin
  resolved from a missing caller value always lands in the clamp range
  0.1 to 0.9 (0.5 fallback included), and with an explicit margin every
  projected COGS equals -(Revenue x (1 - gross_margin)) for that very
  value. -/
theorem claim_C8_gross_margin_clamp_only_derived :
    (∀ (gmv : ℚ) (revenue cogs : Option (List ℚ)),
       DCFMaker.effectiveGrossMargin (some gmv) revenue cogs = gmv) ∧
    (∀ revenue cogs : Option (List ℚ),
       1/10 ≤ DCFMaker.effectiveGrossMargin none revenue cogs ∧
       DCFMaker.effectiveGrossMargin none revenue cogs ≤ 9/10) ∧
    (∀ (s : DCFMaker.IncomeStmt) (gmv : ℚ) (g sp : Option ℚ) (tr : ℚ) (n : ℕ)
       (rows : List DCFMaker.IncomeRow),
       DCFMaker.projectIncome s g (some gmv) sp tr n = some rows →
       ∀ r ∈ rows, r.cogs = -(r.revenue * (1 - gmv))) := by
  refine ⟨fun _ _ _ => rfl, ?_, ?_⟩
  · intro revenue cogs
    show 1/10 ≤ DCFMaker.derivedGrossMargin revenue cogs ∧
       DCFMaker.derivedGrossMargin revenue cogs ≤ 9/10
    cases revenue with
    | none => simp [DCFMaker.derivedGrossMargin]; norm_num
    | some rev =>
        cases cogs with
        | none => simp [DCFMaker.derivedGrossMargin]; norm_num
        | some cg =>
            simp only [DCFMaker.derivedGrossMargin]
            split
            · norm_num
            · constructor
              · exact le_max_left _ _
              · exact max_le (by norm_num) (min_le_left _ _)
  · intro s gmv g sp tr n rows h r hr
    obtain ⟨b, _, hrows⟩ := DCFMaker.projectIncome_some_inv s g (some gmv) sp tr n rows h
    rw [hrows] at hr
    obtain ⟨t, rfl⟩ := DCFMaker.mem_projectRows _ _ _ _ _ _ _ _ _ hr
    simp [DCFMaker.projectRow]
    exact Or.inl rfl

/-- Witness for C8: an explicit margin of 3 (far outside the clamp
  range) flows into the projected COGS unchanged. -/
theorem claim_C8_gross_margin_clamp_only_derived_witness :
    (DCFMaker.projectRow 100 0 3 0 0 0 (-10) 1).cogs =
      -((DCFMaker.projectRow 100 0 3 0 0 0 (-10) 1).revenue * (1 - 3)) := by
  have h := claim_C8_gross_margin_clamp_only_derived.2.2
    { years := [2023], revenue := some [100] } 3 (some 0) (some 0) 0 1
    (DCFMaker.projectRows 100 0 3 0 0 0 (-10) 1) rfl
    (DCFMaker.projectRow 100 0 3 0 0 0 (-10) 1)
    (by simp [DCFMaker.projectRows, List.range_succ])
  exact h
